import Mathlib

/-!
Shallow embedding of the watermark-detection batch pipeline
(`src/watermark_detection.py` and `src/figma_pipeline.py`).

The repository's I/O-facing steps (HTTP requests, file reads/writes, the
YOLO model call, PIL image operations) are modelled by explicit environment
records that say, for each step, whether it raises and what it returns; the
control flow around those steps — the try/except structure, the guard
checks, the list comprehensions and loops — is translated directly from the
Python source.  Machine-level details of images and JSON encoding are
opaque: a persisted file is either absent, present-but-invalid JSON, or a
decoded list of records, exactly the three cases the code distinguishes.
-/

/-- A persisted result entry: `{"image": <path>, "status": <bool>}`
(watermark_detection.py lines 90-102). -/
structure WatermarkRecord where
  image : String
  status : Bool
deriving DecidableEq, Repr

/-- The observable content of `result.json`: absent, present but not valid
JSON (`json.JSONDecodeError` on load), or a decoded array of records. -/
inductive FileState where
  | absent : FileState
  | invalid : FileState
  | valid : List WatermarkRecord → FileState
deriving DecidableEq, Repr

/-- On-disk state of the Result Store: the canonical `result.json` plus
whether a leftover temporary file `result.json.tmp` exists. -/
structure StoreState where
  file : FileState
  temp : Bool
deriving DecidableEq, Repr

/-- Which I/O steps of one `update_json_file` call raise.  `readErr` is a
generic exception while reading the existing file (open/lock/read, lines
41-43) as opposed to the JSONDecodeError case; `removeTmpErr` is a failure
of the cleanup `os.remove(temp_path)` (lines 63-66, swallowed by
`except: pass`). -/
structure StoreEnv where
  readErr : Bool
  writeErr : Bool
  renameErr : Bool
  removeTmpErr : Bool
deriving DecidableEq, Repr

/-- `update_json_file` (watermark_detection.py lines 23-67): load the
existing array if the file exists (invalid JSON and generic read errors are
both caught, leaving `existing_results = []`), append the new results,
write to a temporary file, then atomically rename.  Any write/rename
exception is caught: the temp file is removed (if that removal succeeds)
and the call returns `False`; otherwise it returns `True`. -/
def update_json_file (se : StoreEnv) (s : StoreState) (new_results : List WatermarkRecord) :
    Bool × StoreState :=
  let existing_results : List WatermarkRecord :=
    match s.file with
    | FileState.absent => []
    | FileState.invalid => []
    | FileState.valid recs => if se.readErr then [] else recs
  let all_results := existing_results ++ new_results
  if se.writeErr then
    (false, { file := s.file, temp := se.removeTmpErr })
  else if se.renameErr then
    (false, { file := s.file, temp := se.removeTmpErr })
  else
    (true, { file := FileState.valid all_results, temp := false })

/-- Directory constants (watermark_detection.py lines 9-10). -/
def INPUT_DIR : String := "input_images"

def OUTPUT_DIR : String := "output_images"

/-- Left-to-right, non-overlapping replacement of `pat` by `rep` in a
character list, fuelled by the input length so that it is structural (our
only pattern, `INPUT_DIR`, is nonempty, so the fuel always suffices). -/
def replaceAux (pat rep : List Char) : Nat → List Char → List Char
  | 0, s => s
  | _ + 1, [] => []
  | fuel + 1, c :: rest =>
      if pat.isPrefixOf (c :: rest) then
        rep ++ replaceAux pat rep fuel ((c :: rest).drop pat.length)
      else c :: replaceAux pat rep fuel rest

/-- `p.replace(INPUT_DIR, OUTPUT_DIR)` (watermark_detection.py line 78):
the output path of an input image. -/
def savedPath (p : String) : String :=
  String.mk (replaceAux INPUT_DIR.data OUTPUT_DIR.data p.data.length p.data)

/-- Per-image behaviour of the external steps inside `run_inference`.
`predictOut` is the list returned by `model.predict` for this image, each
element abstracted to its number of boxes; the booleans say whether
`image_enhancer`, `model.predict`, `Image.open`, `os.makedirs`, the
rectangle drawing, or `image.save` raise for this image. -/
structure ImgEnv where
  enhanceErr : Bool
  predictErr : Bool
  predictOut : List Nat
  openErr : Bool
  mkdirErr : Bool
  drawErr : Bool
  saveErr : Bool
deriving Repr

/-- The body of the per-image loop of `run_inference` (watermark_detection.py
lines 81-111), for one image: take `result[0]` (raising on an empty list),
open the input image, create the output directory, append the record with
`status = len(result.boxes) > 0`, draw the boxes (only when there are any),
and save.  Returns the record appended to `watermark_status` (none when the
iteration raised before the append) and whether the output image was saved.
A draw or save failure happens after the append, so the record survives it. -/
def processImage (e : ImgEnv) (out_path : String) : Option WatermarkRecord × Bool :=
  match e.predictOut with
  | [] => (none, false)
  | n :: _ =>
    if e.openErr then (none, false)
    else if e.mkdirErr then (none, false)
    else
      let record : WatermarkRecord := ⟨out_path, decide (0 < n)⟩
      if decide (0 < n) && e.drawErr then (some record, false)
      else if e.saveErr then (some record, false)
      else (some record, true)

/-- Environment of one `run_inference` call: whether the initial
`os.makedirs(OUTPUT_DIR)` raises, the per-image environment (keyed by input
path), and the Result Store environment for the final merge. -/
structure RunInfEnv where
  mkOutDirErr : Bool
  img : String → ImgEnv
  store : StoreEnv

/-- `run_inference` (watermark_detection.py lines 69-122).  The enhancement
and prediction phases are list comprehensions over all images, run before
the per-image loop: an exception in either aborts the whole call (caught by
the outer handler, which logs and returns), producing no records and no
store write.  Otherwise the per-image loop collects `watermark_status` in
input order, skipping images whose iteration raised, and the store merge
runs when that list is nonempty.  Returns the records handed to the merge
(empty when no merge was attempted), the merge call's boolean result
(`none` when no merge was attempted), and the resulting store state. -/
def run_inference (env : RunInfEnv) (image_paths : List String) (s : StoreState) :
    List WatermarkRecord × Option Bool × StoreState :=
  if env.mkOutDirErr then ([], none, s)
  else if image_paths.any (fun p => (env.img p).enhanceErr) then ([], none, s)
  else if image_paths.any (fun p => (env.img p).predictErr) then ([], none, s)
  else
    let watermark_status := image_paths.filterMap
      (fun p => (processImage (env.img p) (savedPath p)).1)
    if watermark_status.isEmpty then ([], none, s)
    else
      let r := update_json_file env.store s watermark_status
      (watermark_status, some r.1, r.2)

/-- Claim C2 counterexample: a generic failure while reading the existing
file (the non-invalid-JSON case) does not make the merge call report
failure: the call reports success and replaces the previously persisted
array with only the new records, so the prior on-disk state is destroyed
rather than left unchanged. -/
theorem merge_read_failure_cex :
    update_json_file ⟨true, false, false, false⟩
        ⟨FileState.valid [⟨"output_images/a.png", true⟩], false⟩
        [⟨"output_images/b.png", false⟩]
      = (true, ⟨FileState.valid [⟨"output_images/b.png", false⟩], false⟩)
    ∧ FileState.valid [⟨"output_images/b.png", false⟩]
      ≠ FileState.valid ([⟨"output_images/a.png", true⟩] ++ [⟨"output_images/b.png", false⟩]) := by
  constructor
  · rfl
  · decide

/-- Claim C2 (amended): if the write or the rename step fails, the merge
call reports failure, the partial temporary file is removed (when that
removal itself succeeds), and the prior on-disk state is unchanged; but a
failing read other than the invalid-JSON case is tolerated like invalid
JSON: it is logged, the existing array is treated as empty, and the merge
proceeds — reporting success when write and rename succeed, with the store
left holding only the new records. -/
theorem merge_failure_reporting (se : StoreEnv) (s : StoreState)
    (E new_results : List WatermarkRecord) :
    ((se.writeErr = true ∨ se.renameErr = true) → se.removeTmpErr = false →
        update_json_file se s new_results = (false, ⟨s.file, false⟩))
    ∧ (se.readErr = true → se.writeErr = false → se.renameErr = false →
        update_json_file se ⟨FileState.valid E, s.temp⟩ new_results
          = (true, ⟨FileState.valid new_results, false⟩)) := by
  constructor
  · intro h hrm
    cases hw : se.writeErr with
    | true => simp [update_json_file, hw, hrm]
    | false =>
      have hr : se.renameErr = true := by
        rcases h with h | h
        · rw [hw] at h; exact absurd h (by simp)
        · exact h
      simp [update_json_file, hw, hr, hrm]
  · intro hr hw hrn
    simp [update_json_file, hr, hw, hrn]

/-- Witness for `merge_failure_reporting` at concrete inputs. -/
theorem merge_failure_reporting_witness :
    update_json_file ⟨false, true, false, false⟩ ⟨FileState.absent, false⟩ []
      = (false, ⟨FileState.absent, false⟩)
    ∧ update_json_file ⟨true, false, false, false⟩
        ⟨FileState.valid [⟨"output_images/c.png", true⟩], false⟩
        [⟨"output_images/d.png", false⟩]
      = (true, ⟨FileState.valid [⟨"output_images/d.png", false⟩], false⟩) :=
  ⟨(merge_failure_reporting ⟨false, true, false, false⟩ ⟨FileState.absent, false⟩ [] []).1
      (Or.inl rfl) rfl,
   (merge_failure_reporting ⟨true, false, false, false⟩
      ⟨FileState.valid [⟨"output_images/c.png", true⟩], false⟩
      [⟨"output_images/c.png", true⟩] [⟨"output_images/d.png", false⟩]).2 rfl rfl rfl⟩

/-- Claim C4 counterexample: when the environment makes the read step fail
(file present and valid, but opening/locking it raises), the merge still
reports success, yet the resulting store is the new records alone, not
`existing ++ new`: a successful merge that does not append. -/
theorem merge_append_cex :
    (update_json_file ⟨true, false, false, false⟩
        ⟨FileState.valid [⟨"output_images/e.png", true⟩], false⟩
        [⟨"output_images/f.png", true⟩]).1 = true
    ∧ (update_json_file ⟨true, false, false, false⟩
        ⟨FileState.valid [⟨"output_images/e.png", true⟩], false⟩
        [⟨"output_images/f.png", true⟩]).2.file
      ≠ FileState.valid ([⟨"output_images/e.png", true⟩] ++ [⟨"output_images/f.png", true⟩]) := by
  constructor
  · rfl
  · decide

/-- Claim C4 (amended): a merge whose read, write and rename steps all
succeed takes a valid on-disk array `E` to `E ++ A` and reports success,
and a second such merge appends `B` after that, leaving `E ++ (A ++ B)` —
so two fully successful merges append `A ++ B` to the prior state. -/
theorem merge_appends_in_order (se se' : StoreEnv) (E A B : List WatermarkRecord) (tmp : Bool)
    (h1 : se.readErr = false) (h2 : se.writeErr = false) (h3 : se.renameErr = false)
    (h4 : se'.readErr = false) (h5 : se'.writeErr = false) (h6 : se'.renameErr = false) :
    update_json_file se ⟨FileState.valid E, tmp⟩ A = (true, ⟨FileState.valid (E ++ A), false⟩)
    ∧ update_json_file se' (update_json_file se ⟨FileState.valid E, tmp⟩ A).2 B
      = (true, ⟨FileState.valid (E ++ (A ++ B)), false⟩) := by
  constructor
  · simp [update_json_file, h1, h2, h3]
  · simp [update_json_file, h1, h2, h3, h4, h5, h6, List.append_assoc]

/-- Witness for `merge_appends_in_order` at concrete inputs. -/
theorem merge_appends_in_order_witness :
    update_json_file ⟨false, false, false, false⟩
        ⟨FileState.valid [⟨"output_images/g.png", false⟩], true⟩
        [⟨"output_images/h.png", true⟩]
      = (true, ⟨FileState.valid
          ([⟨"output_images/g.png", false⟩] ++ [⟨"output_images/h.png", true⟩]), false⟩)
    ∧ update_json_file ⟨false, false, false, false⟩
        (update_json_file ⟨false, false, false, false⟩
          ⟨FileState.valid [⟨"output_images/g.png", false⟩], true⟩
          [⟨"output_images/h.png", true⟩]).2
        [⟨"output_images/i.png", false⟩]
      = (true, ⟨FileState.valid
          ([⟨"output_images/g.png", false⟩]
            ++ ([⟨"output_images/h.png", true⟩] ++ [⟨"output_images/i.png", false⟩])), false⟩) :=
  merge_appends_in_order ⟨false, false, false, false⟩ ⟨false, false, false, false⟩
    [⟨"output_images/g.png", false⟩] [⟨"output_images/h.png", true⟩]
    [⟨"output_images/i.png", false⟩] true rfl rfl rfl rfl rfl rfl

/-- Per-image environment for the C1 scenario: four downloaded images,
`model.predict` raises for the second one, every other step succeeds and
every image has one detected box. -/
def c1Img : String → ImgEnv := fun p =>
  if p = "input_images/b.png" then ⟨false, true, [1], false, false, false, false⟩
  else ⟨false, false, [1], false, false, false, false⟩

def c1Env : RunInfEnv := ⟨false, c1Img, ⟨false, false, false, false⟩⟩

def c1Paths : List String :=
  ["input_images/a.png", "input_images/b.png", "input_images/c.png", "input_images/d.png"]

/-- Claim C1 counterexample: in a 4-image batch where the Detector raises
for exactly one image (every other step of every other image succeeding),
the prediction phase is a list comprehension over the whole batch run
before the per-image loop, so its exception aborts the entire call: zero
records are handed to the store — not one record per remaining image — and
the store is untouched. -/
theorem detector_error_three_records_cex :
    c1Paths.length = 4
    ∧ (c1Img "input_images/b.png").predictErr = true
    ∧ (c1Img "input_images/a.png").predictErr = false
    ∧ (c1Img "input_images/c.png").predictErr = false
    ∧ (c1Img "input_images/d.png").predictErr = false
    ∧ (c1Img "input_images/a.png").enhanceErr = false
    ∧ (c1Img "input_images/c.png").enhanceErr = false
    ∧ (c1Img "input_images/d.png").enhanceErr = false
    ∧ run_inference c1Env c1Paths ⟨FileState.absent, false⟩
        = ([], none, ⟨FileState.absent, false⟩) := by
  refine ⟨rfl, rfl, ?_, ?_, ?_, ?_, ?_, ?_, rfl⟩ <;> decide

/-- Claim C1 (amended): if `image_enhancer` or `model.predict` raises for
any image of the batch, the whole call's record production is aborted —
zero records are produced, no merge is attempted, and the store is left
unchanged; the error is caught inside inference, so the run proceeds.
Per-image skipping applies only to the post-prediction processing loop. -/
theorem detector_error_yields_no_records (env : RunInfEnv) (paths : List String) (s : StoreState)
    (h : ∃ p ∈ paths, (env.img p).enhanceErr = true ∨ (env.img p).predictErr = true) :
    run_inference env paths s = ([], none, s) := by
  obtain ⟨p, hp, hpe⟩ := h
  unfold run_inference
  cases hmk : env.mkOutDirErr with
  | true => simp
  | false =>
    by_cases he : paths.any (fun q => (env.img q).enhanceErr) = true
    · simp [he]
    · have hpred : paths.any (fun q => (env.img q).predictErr) = true := by
        rcases hpe with h1 | h1
        · exact absurd (List.any_eq_true.mpr ⟨p, hp, h1⟩) he
        · exact List.any_eq_true.mpr ⟨p, hp, h1⟩
      simp [he, hpred]

/-- Witness for `detector_error_yields_no_records` at a concrete input. -/
theorem detector_error_yields_no_records_witness :
    run_inference c1Env c1Paths ⟨FileState.valid [⟨"output_images/z.png", true⟩], false⟩
      = ([], none, ⟨FileState.valid [⟨"output_images/z.png", true⟩], false⟩) :=
  detector_error_yields_no_records c1Env c1Paths
    ⟨FileState.valid [⟨"output_images/z.png", true⟩], false⟩
    ⟨"input_images/b.png", by decide, Or.inr (by decide)⟩

/-- Claim C9: for an image whose detection succeeded, the record is
appended to `watermark_status` before the annotation drawing and before the
save, so a draw or save failure does not remove it: the record, with the
status computed from the detection result, is still among the records
handed to the store merge. -/
theorem draw_save_failure_keeps_record (env : RunInfEnv) (paths : List String) (s : StoreState)
    (p : String) (n : Nat) (rest : List Nat)
    (hmem : p ∈ paths)
    (hmk : env.mkOutDirErr = false)
    (hok : ∀ q ∈ paths, (env.img q).enhanceErr = false ∧ (env.img q).predictErr = false)
    (hpred : (env.img p).predictOut = n :: rest)
    (hopen : (env.img p).openErr = false)
    (hmkdir : (env.img p).mkdirErr = false)
    (_hfail : (env.img p).drawErr = true ∨ (env.img p).saveErr = true) :
    (⟨savedPath p, decide (0 < n)⟩ : WatermarkRecord) ∈ (run_inference env paths s).1 := by
  have he : paths.any (fun q => (env.img q).enhanceErr) = false := by
    rw [List.any_eq_false]
    intro q hq
    simp [(hok q hq).1]
  have hpr : paths.any (fun q => (env.img q).predictErr) = false := by
    rw [List.any_eq_false]
    intro q hq
    simp [(hok q hq).2]
  have hsome : (processImage (env.img p) (savedPath p)).1
      = some ⟨savedPath p, decide (0 < n)⟩ := by
    unfold processImage
    rw [hpred]
    simp only [hopen, hmkdir, if_false, Bool.false_eq_true]
    split
    · rfl
    · split <;> rfl
  have hrec : (⟨savedPath p, decide (0 < n)⟩ : WatermarkRecord)
      ∈ paths.filterMap (fun q => (processImage (env.img q) (savedPath q)).1) :=
    List.mem_filterMap.mpr ⟨p, hmem, hsome⟩
  have hne : (paths.filterMap (fun q => (processImage (env.img q) (savedPath q)).1)).isEmpty
      = false := by
    rw [Bool.eq_false_iff]
    rw [Ne, List.isEmpty_iff]
    exact List.ne_nil_of_mem hrec
  unfold run_inference
  simp only [hmk, he, hpr, Bool.false_eq_true, if_false, hne]
  exact hrec

/-- Per-image environment for the C9 witness: one image, one box detected,
drawing the annotation raises, everything else succeeds. -/
def c9Img : String → ImgEnv := fun _ => ⟨false, false, [2], false, false, true, false⟩

/-- Witness for `draw_save_failure_keeps_record` at a concrete input. -/
theorem draw_save_failure_keeps_record_witness :
    (⟨savedPath "input_images/w9.png", decide (0 < 2)⟩ : WatermarkRecord)
      ∈ (run_inference ⟨false, c9Img, ⟨false, false, false, false⟩⟩
          ["input_images/w9.png"] ⟨FileState.absent, false⟩).1 :=
  draw_save_failure_keeps_record ⟨false, c9Img, ⟨false, false, false, false⟩⟩
    ["input_images/w9.png"] ⟨FileState.absent, false⟩ "input_images/w9.png" 2 []
    (by decide) rfl (by decide) rfl rfl rfl (Or.inl rfl)

/-- Outcomes of the HTTP and file steps of one `_download_image` call
(figma_pipeline.py lines 47-82): whether the first GET raises, its status,
whether the 3xx response carries a `Location` header, whether the second
GET raises, its status, and whether writing the downloaded bytes raises. -/
structure DlEnv where
  transport1Err : Bool
  firstStatus : Nat
  hasLocation : Bool
  transport2Err : Bool
  secondStatus : Nat
  fileWriteErr : Bool
deriving DecidableEq, Repr

/-- The statuses the code treats as a redirect (figma_pipeline.py line 60). -/
def redirectStatuses : List Nat := [301, 302, 303, 307, 308]

/-- The body of `_download_image` before exception handling: the code
inside the `try` block, with `Except.error` marking a raised exception
(transport errors, the `KeyError` from a missing `Location` header, or a
failure writing the file) and `Except.ok` a normal return (`None` on a
non-redirect first hop or a non-200 second hop). -/
def download_body (e : DlEnv) (filename : String) : Except String (Option String) :=
  if e.transport1Err then Except.error "transport"
  else if e.firstStatus ∈ redirectStatuses then
    if e.hasLocation = false then Except.error "KeyError"
    else if e.transport2Err then Except.error "transport"
    else if e.secondStatus = 200 then
      if e.fileWriteErr then Except.error "write"
      else Except.ok (some (INPUT_DIR ++ "/" ++ filename))
    else Except.ok none
  else Except.ok none

/-- `_download_image` (figma_pipeline.py lines 47-82): the body wrapped in
the catch-all handler, which turns every raised exception into `None`. -/
def download_image (e : DlEnv) (filename : String) : Option String :=
  match download_body e filename with
  | Except.ok r => r
  | Except.error _ => none

/-- The generated destination filename for position `idx` of batch
`batch_num` (figma_pipeline.py line 98). -/
def fname (batch_num idx : Nat) : String :=
  "image_batch" ++ toString batch_num ++ "_" ++ toString idx ++ ".png"

/-- Claim C6: each failure shape of a fetch — a first-hop response that is
neither a 3xx redirect nor a 200, a 3xx response with no `Location` header,
a non-200 second hop, or a transport-level error on either hop — yields the
failure outcome `none`, and any exception raised inside the body is caught
by the handler rather than propagated, so the caller only ever sees an
`Option`. -/
theorem fetch_failure_outcomes (e : DlEnv) (fn : String) :
    (e.firstStatus ∉ redirectStatuses ∧ e.firstStatus ≠ 200 → download_image e fn = none)
    ∧ (e.firstStatus ∈ redirectStatuses ∧ e.hasLocation = false → download_image e fn = none)
    ∧ (e.firstStatus ∈ redirectStatuses ∧ e.secondStatus ≠ 200 → download_image e fn = none)
    ∧ (e.transport1Err = true ∨ e.transport2Err = true → download_image e fn = none)
    ∧ (∀ msg, download_body e fn = Except.error msg → download_image e fn = none) := by
  refine ⟨?_, ?_, ?_, ?_, ?_⟩
  · intro ⟨h1, _⟩
    cases ht : e.transport1Err with
    | true => simp [download_image, download_body, ht]
    | false => simp [download_image, download_body, ht, h1]
  · intro ⟨h1, h2⟩
    cases ht : e.transport1Err <;>
      simp [download_image, download_body, ht, h1, h2]
  · intro ⟨h1, h2⟩
    cases ht1 : e.transport1Err <;> cases hl : e.hasLocation <;>
        cases ht2 : e.transport2Err <;>
      simp [download_image, download_body, ht1, hl, ht2, h1, h2]
  · intro h
    rcases h with h | h
    · simp [download_image, download_body, h]
    · cases ht1 : e.transport1Err with
      | true => simp [download_image, download_body, ht1]
      | false =>
        by_cases hm : e.firstStatus ∈ redirectStatuses
        · cases hl : e.hasLocation <;>
            simp [download_image, download_body, ht1, hm, hl, h]
        · simp [download_image, download_body, ht1, hm]
  · intro msg hmsg
    simp [download_image, hmsg]

/-- Witness for `fetch_failure_outcomes`, applying each conjunct at a
concrete environment. -/
theorem fetch_failure_outcomes_witness :
    download_image ⟨false, 404, false, false, 200, false⟩ "image_batch1_0.png" = none
    ∧ download_image ⟨false, 302, false, false, 200, false⟩ "image_batch1_0.png" = none
    ∧ download_image ⟨false, 302, true, false, 403, false⟩ "image_batch1_0.png" = none
    ∧ download_image ⟨true, 302, true, false, 200, false⟩ "image_batch1_0.png" = none
    ∧ download_image ⟨false, 302, false, false, 200, false⟩ "image_batch1_0.png" = none :=
  ⟨(fetch_failure_outcomes ⟨false, 404, false, false, 200, false⟩ "image_batch1_0.png").1
      ⟨by decide, by decide⟩,
   (fetch_failure_outcomes ⟨false, 302, false, false, 200, false⟩ "image_batch1_0.png").2.1
      ⟨by decide, rfl⟩,
   (fetch_failure_outcomes ⟨false, 302, true, false, 403, false⟩ "image_batch1_0.png").2.2.1
      ⟨by decide, by decide⟩,
   (fetch_failure_outcomes ⟨true, 302, true, false, 200, false⟩ "image_batch1_0.png").2.2.2.1
      (Or.inl rfl),
   (fetch_failure_outcomes ⟨false, 302, false, false, 200, false⟩ "image_batch1_0.png").2.2.2.2
      "KeyError" rfl⟩

/-- In-memory state of one `FigmaPipeline` run: the `processed_batches`
set (as a list of batch numbers), the Result Store state, and the files
currently in the input directory. -/
structure PipeState where
  processedBatches : List Nat
  store : StoreState
  inputDir : List String
deriving DecidableEq, Repr

/-- Environment of one `_process_batch` call: whether creating the
connector/session raises, the per-download-position HTTP environment, and
the environment of the inference call. -/
structure BatchEnv where
  sessionErr : Bool
  dl : Nat → DlEnv
  inf : RunInfEnv

/-- Observables of one `_process_batch` call: how many fetches were
started, the successful download paths it returns, the boolean result of
the store merge made inside inference (`none` when no merge happened), and
the resulting run state. -/
structure BatchResult where
  attempts : Nat
  successful : List String
  mergeOk : Option Bool
  state : PipeState
deriving DecidableEq, Repr

/-- `_process_batch` (figma_pipeline.py lines 84-124): under the batch
lock, return `[]` at once when the batch number is already in
`processed_batches`; otherwise fetch every URL of the batch concurrently
(`asyncio.gather` returns the per-task results in task order), keep the
non-`None` paths, and if any download succeeded run inference on them and
add the batch number to `processed_batches` — the inference call cannot
raise, because `watermark_detection.run_inference` catches every exception
(including a failed store merge, which it only logs), so the `add` on line
113 runs whenever `successful_downloads` is nonempty.  A session/connector
exception is caught by the outer handler, which returns `[]`. -/
def process_batch (env : BatchEnv) (image_urls : List String) (batch_num : Nat)
    (st : PipeState) : BatchResult :=
  if batch_num ∈ st.processedBatches then ⟨0, [], none, st⟩
  else if env.sessionErr then ⟨0, [], none, st⟩
  else
    let downloaded_paths := (List.range image_urls.length).map
      (fun idx => download_image (env.dl idx) (fname batch_num idx))
    let successful_downloads := downloaded_paths.filterMap id
    let dirAfter := st.inputDir ++ successful_downloads
    if successful_downloads.isEmpty then
      ⟨image_urls.length, successful_downloads, none,
        { st with inputDir := dirAfter }⟩
    else
      let r := run_inference env.inf successful_downloads st.store
      ⟨image_urls.length, successful_downloads, r.2.1,
        ⟨batch_num :: st.processedBatches, r.2.2, dirAfter⟩⟩

/-- Download environment that always succeeds through the redirect flow. -/
def dlOk : DlEnv := ⟨false, 302, true, false, 200, false⟩

/-- Download environment whose first request raises a transport error. -/
def dlFail : DlEnv := ⟨true, 302, true, false, 200, false⟩

/-- Image environment with one detected box and no failures. -/
def imgOk : ImgEnv := ⟨false, false, [1], false, false, false, false⟩

/-- Batch environment for the C3 counterexample: the single download and
the inference steps all succeed, but the store write fails, so the merge
reports failure. -/
def c3Env : BatchEnv :=
  ⟨false, fun _ => dlOk, ⟨false, fun _ => imgOk, ⟨false, true, false, false⟩⟩⟩

def emptyPipe : PipeState := ⟨[], ⟨FileState.absent, false⟩, []⟩

/-- Claim C3 counterexample: a batch whose single image downloads and
infers successfully but whose persist (merge) step reports failure is
nevertheless added to `processed_batches`: the merge's `False` result is
only logged inside inference, no exception reaches `_process_batch`, and
the `add` runs. -/
theorem merge_failure_still_marked_cex :
    (process_batch c3Env ["https://www.figma.com/file/k/image/r1"] 1 emptyPipe).mergeOk
      = some false
    ∧ 1 ∈ (process_batch c3Env ["https://www.figma.com/file/k/image/r1"] 1
        emptyPipe).state.processedBatches
    ∧ (process_batch c3Env ["https://www.figma.com/file/k/image/r1"] 1
        emptyPipe).state.store = emptyPipe.store := by
  refine ⟨by decide, by decide, by decide⟩

/-- If at least one download of the batch succeeded, `_process_batch`
reaches line 113 and adds the batch number to `processed_batches`,
whatever the inference and merge outcomes were. -/
theorem process_batch_marks (env : BatchEnv) (image_urls : List String) (batch_num : Nat)
    (st : PipeState)
    (hsucc : (process_batch env image_urls batch_num st).successful ≠ []) :
    (process_batch env image_urls batch_num st).state.processedBatches
      = batch_num :: st.processedBatches := by
  simp only [process_batch] at hsucc ⊢
  split_ifs at hsucc ⊢ with h1 h2 h3
  · exact absurd rfl hsucc
  · exact absurd rfl hsucc
  · rw [List.isEmpty_iff] at h3
    exact absurd h3 hsucc
  · rfl

/-- A batch number already in `processed_batches` short-circuits
`_process_batch` before any work (figma_pipeline.py lines 87-89). -/
theorem process_batch_of_mem (env : BatchEnv) (image_urls : List String) (batch_num : Nat)
    (st : PipeState) (h : batch_num ∈ st.processedBatches) :
    process_batch env image_urls batch_num st = ⟨0, [], none, st⟩ := by
  unfold process_batch
  rw [if_pos h]

/-- Claim C3 (amended): the batch number is added to `processed_batches`
whenever at least one download of the batch succeeded — regardless of the
merge outcome, because inference swallows every error including a failed
persist.  In particular a batch whose merge reports failure is still
marked processed. -/
theorem marked_processed_despite_merge_failure (env : BatchEnv) (image_urls : List String)
    (batch_num : Nat) (st : PipeState)
    (hsucc : (process_batch env image_urls batch_num st).successful ≠ []) :
    (process_batch env image_urls batch_num st).state.processedBatches
      = batch_num :: st.processedBatches :=
  process_batch_marks env image_urls batch_num st hsucc

/-- Witness for `marked_processed_despite_merge_failure` at the concrete
C3 environment, where the merge reports failure. -/
theorem marked_processed_despite_merge_failure_witness :
    (process_batch c3Env ["https://www.figma.com/file/k/image/r1"] 1 emptyPipe).state.processedBatches
      = 1 :: emptyPipe.processedBatches :=
  marked_processed_despite_merge_failure c3Env ["https://www.figma.com/file/k/image/r1"] 1
    emptyPipe (by decide)

/-- Batch environment for the C5 counterexample, first submission: the
only download fails, everything else is benign. -/
def c5EnvA : BatchEnv :=
  ⟨false, fun _ => dlFail, ⟨false, fun _ => imgOk, ⟨false, false, false, false⟩⟩⟩

/-- Batch environment for the C5 counterexample, second submission: the
download now succeeds. -/
def c5EnvB : BatchEnv :=
  ⟨false, fun _ => dlOk, ⟨false, fun _ => imgOk, ⟨false, false, false, false⟩⟩⟩

/-- Claim C5 counterexample: a batch all of whose downloads failed is not
added to `processed_batches` (the `add` runs only when some download
succeeded), so submitting the same batch number a second time does *not*
return an empty result before doing any work: it attempts the download
again (one fetch is started, and here it succeeds), contradicting the
claim that a second submission performs no download at all. -/
theorem resubmission_downloads_again_cex :
    (process_batch c5EnvA ["https://www.figma.com/file/k/image/r2"] 1 emptyPipe).state.processedBatches = []
    ∧ (process_batch c5EnvB ["https://www.figma.com/file/k/image/r2"] 1
        (process_batch c5EnvA ["https://www.figma.com/file/k/image/r2"] 1 emptyPipe).state).attempts = 1
    ∧ (process_batch c5EnvB ["https://www.figma.com/file/k/image/r2"] 1
        (process_batch c5EnvA ["https://www.figma.com/file/k/image/r2"] 1 emptyPipe).state).successful ≠ [] := by
  refine ⟨by decide, by decide, by decide⟩

/-- Claim C5 (amended): after a first submission in which at least one
download succeeded (which marks the batch processed), resubmitting the
same batch number is a no-op: the guard fires before any work, so no
fetch is started, nothing is returned, no record is appended, and the
state — the store included — is unchanged.  A batch with zero successful
downloads is not marked, and resubmission re-attempts its downloads. -/
theorem resubmission_after_success_is_noop (env1 env2 : BatchEnv)
    (image_urls1 image_urls2 : List String) (batch_num : Nat) (st : PipeState)
    (hsucc : (process_batch env1 image_urls1 batch_num st).successful ≠ []) :
    process_batch env2 image_urls2 batch_num
        (process_batch env1 image_urls1 batch_num st).state
      = ⟨0, [], none, (process_batch env1 image_urls1 batch_num st).state⟩ := by
  have hmem : batch_num ∈ (process_batch env1 image_urls1 batch_num st).state.processedBatches := by
    rw [process_batch_marks env1 image_urls1 batch_num st hsucc]
    exact List.mem_cons_self batch_num st.processedBatches
  exact process_batch_of_mem env2 image_urls2 batch_num _ hmem

/-- Witness for `resubmission_after_success_is_noop`: a first submission
whose download succeeds, then a resubmission that is a no-op. -/
theorem resubmission_after_success_is_noop_witness :
    process_batch c5EnvA ["https://www.figma.com/file/k/image/r3"] 2
        (process_batch c5EnvB ["https://www.figma.com/file/k/image/r3"] 2 emptyPipe).state
      = ⟨0, [], none,
          (process_batch c5EnvB ["https://www.figma.com/file/k/image/r3"] 2 emptyPipe).state⟩ :=
  resubmission_after_success_is_noop c5EnvB c5EnvA
    ["https://www.figma.com/file/k/image/r3"] ["https://www.figma.com/file/k/image/r3"] 2
    emptyPipe (by decide)

/-- Model of `asyncio.gather` over one batch's download tasks: task `i`
computes `f i`; tasks finish in the sequence `order` (any interleaving),
and each finishing task stores its result at its own index of a result
array of size `n` (`none` marks a slot whose task has not finished). -/
def gatherRun (n : Nat) (f : Nat → Option String) (order : List Nat) :
    List (Option (Option String)) :=
  order.foldl (fun acc i => acc.set i (some (f i))) (List.replicate n none)

theorem gather_foldl_length (f : Nat → Option String) :
    ∀ (order : List Nat) (acc : List (Option (Option String))),
      (order.foldl (fun a j => a.set j (some (f j))) acc).length = acc.length := by
  intro order
  induction order with
  | nil => intro acc; rfl
  | cons j rest ih =>
    intro acc
    rw [List.foldl_cons, ih, List.length_set]

theorem gather_foldl_getElem (f : Nat → Option String) :
    ∀ (order : List Nat) (acc : List (Option (Option String))) (i : Nat), i < acc.length →
      (order.foldl (fun a j => a.set j (some (f j))) acc)[i]?
        = if i ∈ order then some (some (f i)) else acc[i]? := by
  intro order
  induction order with
  | nil => intro acc i hi; simp
  | cons j rest ih =>
    intro acc i hi
    rw [List.foldl_cons, ih (acc.set j (some (f j))) i (by rw [List.length_set]; exact hi)]
    by_cases hmem : i ∈ rest
    · simp [hmem]
    · simp only [hmem, if_false]
      rw [List.getElem?_set]
      by_cases hij : j = i
      · subst hij
        simp [hi]
      · have hij2 : ¬i = j := fun hh => hij hh.symm
        simp [hij, List.mem_cons, hmem, hij2]

/-- When every task finishes exactly once (the completion sequence is a
permutation of the task indices), the gathered array holds task `i`'s
result at index `i`, independent of the completion sequence. -/
theorem gatherRun_eq (n : Nat) (f : Nat → Option String) (order : List Nat)
    (h : order.Perm (List.range n)) :
    gatherRun n f order = (List.range n).map (fun i => some (f i)) := by
  apply List.ext_getElem?
  intro i
  by_cases hi : i < n
  · unfold gatherRun
    rw [gather_foldl_getElem f order _ i (by rw [List.length_replicate]; exact hi)]
    rw [if_pos (h.mem_iff.mpr (List.mem_range.mpr hi))]
    rw [List.getElem?_map, List.getElem?_range hi]
    rfl
  · have h1 : (gatherRun n f order).length = n := by
      unfold gatherRun
      rw [gather_foldl_length, List.length_replicate]
    have h2 : ((List.range n).map (fun i => some (f i))).length = n := by
      rw [List.length_map, List.length_range]
    rw [List.getElem?_eq_none (by omega), List.getElem?_eq_none (by omega)]

/-- Claim C7: the list of successful paths passed to inference is the
per-URL download outcomes in the original URL order with the failed
entries removed.  First conjunct: whatever order the concurrent downloads
finish in, the gathered outcome array is the per-index outcomes in index
(i.e. original URL) order — a completion-order-independent result.
Second conjunct: `_process_batch` passes on exactly the `None`-filtered
outcome list, a filter of the input order, never a reorder. -/
theorem inference_input_is_input_order_filter :
    (∀ (n : Nat) (f : Nat → Option String) (order : List Nat), order.Perm (List.range n) →
      (gatherRun n f order).map (fun r => r.getD none) = (List.range n).map f)
    ∧ ∀ (env : BatchEnv) (image_urls : List String) (batch_num : Nat) (st : PipeState),
        batch_num ∉ st.processedBatches → env.sessionErr = false →
        (process_batch env image_urls batch_num st).successful
          = ((List.range image_urls.length).map
              (fun idx => download_image (env.dl idx) (fname batch_num idx))).filterMap id := by
  constructor
  · intro n f order h
    rw [gatherRun_eq n f order h, List.map_map]
    rfl
  · intro env image_urls batch_num st hnew hs
    simp only [process_batch, if_neg hnew, hs, Bool.false_eq_true, if_false]
    split_ifs <;> rfl

/-- Witness for `inference_input_is_input_order_filter`: three tasks of
which the middle one fails, finishing in the order 2, 0, 1; and a concrete
one-URL batch. -/
theorem inference_input_is_input_order_filter_witness :
    (gatherRun 3 (fun i => if i = 1 then none else some (toString i)) [2, 0, 1]).map
        (fun r => r.getD none)
      = (List.range 3).map (fun i => if i = 1 then none else some (toString i))
    ∧ (process_batch c5EnvB ["https://www.figma.com/file/k/image/r4"] 3 emptyPipe).successful
      = ((List.range 1).map (fun idx => download_image (c5EnvB.dl idx) (fname 3 idx))).filterMap id :=
  ⟨inference_input_is_input_order_filter.1 3 (fun i => if i = 1 then none else some (toString i))
      [2, 0, 1] (by decide),
   inference_input_is_input_order_filter.2 c5EnvB ["https://www.figma.com/file/k/image/r4"] 3
      emptyPipe (by decide) rfl⟩

/-- Batch slicing of `run_pipeline` (figma_pipeline.py lines 201-203): the
loop `for i in range(0, N, B)` takes `image_urls[i:i+B]` per step.  Fuelled
by the list length so the recursion is structural; with `0 < B` the fuel
always suffices, since every step drops at least one element. -/
def chunksAux (B : Nat) : Nat → List String → List (List String)
  | _, [] => []
  | 0, _ :: _ => []
  | fuel + 1, l => l.take B :: chunksAux B fuel (l.drop B)

def chunks (B : Nat) (image_urls : List String) : List (List String) :=
  chunksAux B image_urls.length image_urls

theorem chunksAux_nil (B fuel : Nat) : chunksAux B fuel [] = [] := by
  cases fuel <;> rfl

theorem chunksAux_length (B : Nat) (hB : 0 < B) :
    ∀ (fuel : Nat) (l : List String), l.length ≤ fuel →
      (chunksAux B fuel l).length = (l.length + B - 1) / B := by
  intro fuel
  induction fuel with
  | zero =>
    intro l hl
    have h0 : l = [] := List.eq_nil_of_length_eq_zero (Nat.le_zero.mp hl)
    subst h0
    simp only [chunksAux_nil, List.length_nil]
    exact (Nat.div_eq_of_lt (by omega)).symm
  | succ fuel ih =>
    intro l hl
    cases l with
    | nil =>
      simp only [chunksAux_nil, List.length_nil]
      exact (Nat.div_eq_of_lt (by omega)).symm
    | cons x rest =>
      have hlen : ((x :: rest).drop B).length ≤ fuel := by
        rw [List.length_drop, List.length_cons]
        rw [List.length_cons] at hl
        omega
      rw [show chunksAux B (fuel + 1) (x :: rest)
            = (x :: rest).take B :: chunksAux B fuel ((x :: rest).drop B) from rfl]
      rw [List.length_cons, ih _ hlen, List.length_drop]
      generalize hn : (x :: rest).length = n
      have hn1 : 1 ≤ n := by rw [← hn]; simp
      rcases le_or_lt n B with hc | hc
      · have h0 : n - B = 0 := by omega
        rw [h0, Nat.div_eq_of_lt (show 0 + B - 1 < B by omega)]
        have h2 : n + B - 1 = (n - 1) + B := by omega
        rw [h2, Nat.add_div_right _ hB, Nat.div_eq_of_lt (show n - 1 < B by omega)]
      · have e1 : n - B + B - 1 = (n - B - 1) + B := by omega
        have e2 : n + B - 1 = ((n - B - 1) + B) + B := by omega
        rw [e1, e2, Nat.add_div_right _ hB, Nat.add_div_right _ hB, Nat.add_div_right _ hB]

theorem chunksAux_flatten (B : Nat) (hB : 0 < B) :
    ∀ (fuel : Nat) (l : List String), l.length ≤ fuel → (chunksAux B fuel l).flatten = l := by
  intro fuel
  induction fuel with
  | zero =>
    intro l hl
    have h0 : l = [] := List.eq_nil_of_length_eq_zero (Nat.le_zero.mp hl)
    subst h0
    rw [chunksAux_nil]
    rfl
  | succ fuel ih =>
    intro l hl
    cases l with
    | nil => rw [chunksAux_nil]; rfl
    | cons x rest =>
      have hlen : ((x :: rest).drop B).length ≤ fuel := by
        rw [List.length_drop, List.length_cons]
        rw [List.length_cons] at hl
        omega
      rw [show chunksAux B (fuel + 1) (x :: rest)
            = (x :: rest).take B :: chunksAux B fuel ((x :: rest).drop B) from rfl]
      rw [List.flatten_cons, ih _ hlen, List.take_append_drop]

theorem chunksAux_mem_le (B : Nat) :
    ∀ (fuel : Nat) (l : List String), ∀ c ∈ chunksAux B fuel l, c.length ≤ B := by
  intro fuel
  induction fuel with
  | zero =>
    intro l c hc
    cases l <;> simp [chunksAux, chunksAux_nil] at hc
  | succ fuel ih =>
    intro l c hc
    cases l with
    | nil => rw [chunksAux_nil] at hc; simp at hc
    | cons x rest =>
      rw [show chunksAux B (fuel + 1) (x :: rest)
            = (x :: rest).take B :: chunksAux B fuel ((x :: rest).drop B) from rfl] at hc
      rcases List.mem_cons.mp hc with h | h
      · subst h
        rw [List.length_take]
        exact Nat.min_le_left B _
      · exact ih _ c h

theorem chunksAux_dropLast_len (B : Nat) (hB : 0 < B) :
    ∀ (fuel : Nat) (l : List String), l.length ≤ fuel →
      ∀ c ∈ (chunksAux B fuel l).dropLast, c.length = B := by
  intro fuel
  induction fuel with
  | zero =>
    intro l hl c hc
    have h0 : l = [] := List.eq_nil_of_length_eq_zero (Nat.le_zero.mp hl)
    subst h0
    rw [chunksAux_nil] at hc
    simp at hc
  | succ fuel ih =>
    intro l hl c hc
    cases l with
    | nil => rw [chunksAux_nil] at hc; simp at hc
    | cons x rest =>
      have hlen : ((x :: rest).drop B).length ≤ fuel := by
        rw [List.length_drop, List.length_cons]
        rw [List.length_cons] at hl
        omega
      rw [show chunksAux B (fuel + 1) (x :: rest)
            = (x :: rest).take B :: chunksAux B fuel ((x :: rest).drop B) from rfl] at hc
      cases hrec : chunksAux B fuel ((x :: rest).drop B) with
      | nil => rw [hrec] at hc; simp at hc
      | cons y ys =>
        rw [hrec] at hc
        rw [show ((x :: rest).take B :: y :: ys).dropLast
              = (x :: rest).take B :: (y :: ys).dropLast from rfl] at hc
        rcases List.mem_cons.mp hc with h | h
        · subst h
          have hne : (x :: rest).drop B ≠ [] := by
            intro h0
            rw [h0, chunksAux_nil] at hrec
            exact List.cons_ne_nil y ys hrec.symm
          have hBlt : B < (x :: rest).length := by
            by_contra hle
            push_neg at hle
            exact hne (List.drop_eq_nil_of_le hle)
          rw [List.length_take]
          omega
        · have h2 : c ∈ (chunksAux B fuel ((x :: rest).drop B)).dropLast := by
            rw [hrec]; exact h
          exact ih _ hlen c h2

/-- `_clear_input_directory` (figma_pipeline.py lines 37-45): tries to
unlink every file; a failing unlink is logged and the file remains. -/
def clear_input_dir (unlinkFails : String → Bool) (files : List String) : List String :=
  files.filter (fun f => unlinkFails f)

/-- Environment of a whole pipeline run: a batch environment per batch
number and, per batch and file, whether the unlink during the clear step
fails. -/
structure PipelineEnv where
  batchEnv : Nat → BatchEnv
  clearFail : Nat → String → Bool

/-- The batch loop of `run_pipeline` (figma_pipeline.py lines 201-209):
process each batch in sequence, then clear the input directory, whatever
the batch's outcome was.  Also records the trace of batch numbers whose
cycle (process + clear) was run. -/
def pipelineLoop (env : PipelineEnv) :
    Nat → List (List String) → PipeState → List Nat → PipeState × List Nat
  | _, [], st, trace => (st, trace)
  | batch_num, batch :: rest, st, trace =>
    let r := process_batch (env.batchEnv batch_num) batch batch_num st
    let st2 : PipeState :=
      { r.state with inputDir := clear_input_dir (env.clearFail batch_num) r.state.inputDir }
    pipelineLoop env (batch_num + 1) rest st2 (trace ++ [batch_num])

/-- `run_pipeline` (figma_pipeline.py lines 187-216): with no URLs the run
ends at once; otherwise the URLs are cut into batches of `batch_size` and
processed strictly sequentially with batch numbers 1, 2, ….  A zero batch
size makes `range` raise, which the outer handler catches, ending the run
with no batch formed. -/
def run_pipeline (env : PipelineEnv) (image_urls : List String) (batch_size : Nat)
    (st : PipeState) : PipeState × List Nat :=
  if batch_size = 0 then (st, [])
  else if image_urls.isEmpty then (st, [])
  else pipelineLoop env 1 (chunks batch_size image_urls) st []

theorem pipelineLoop_trace (env : PipelineEnv) :
    ∀ (bs : List (List String)) (batch_num : Nat) (st : PipeState) (trace : List Nat),
      (pipelineLoop env batch_num bs st trace).2 = trace ++ List.range' batch_num bs.length := by
  intro bs
  induction bs with
  | nil => intro batch_num st trace; simp [pipelineLoop, List.range']
  | cons b rest ih =>
    intro batch_num st trace
    rw [show pipelineLoop env batch_num (b :: rest) st trace
          = pipelineLoop env (batch_num + 1) rest
              { (process_batch (env.batchEnv batch_num) b batch_num st).state with
                inputDir := clear_input_dir (env.clearFail batch_num)
                  (process_batch (env.batchEnv batch_num) b batch_num st).state.inputDir }
              (trace ++ [batch_num]) from rfl]
    rw [ih]
    simp [List.range', List.append_assoc]

theorem run_pipeline_trace (env : PipelineEnv) (image_urls : List String) (batch_size : Nat)
    (st : PipeState) (hB : 0 < batch_size) :
    (run_pipeline env image_urls batch_size st).2
      = List.range' 1 (chunks batch_size image_urls).length := by
  unfold run_pipeline
  rw [if_neg (Nat.pos_iff_ne_zero.mp hB)]
  by_cases he : image_urls.isEmpty = true
  · rw [if_pos he]
    rw [List.isEmpty_iff] at he
    subst he
    simp [chunks, chunksAux_nil, List.range']
  · rw [if_neg he, pipelineLoop_trace]
    simp

/-- Claim C8: for batch size B ≥ 1 the Controller forms exactly
ceil(N/B) = (N + B - 1) / B batches — the source's own `total_batches`
formula — whose concatenation is the URL list in discovery order, every
batch at most B long and every batch but the last exactly B long; the
trace of batch cycles run has that same length; and with no URLs the run
ends at once, forming no batch and leaving the state (the Result Store
included) untouched. -/
theorem controller_forms_ceil_batches (batch_size : Nat) (hB : 0 < batch_size)
    (image_urls : List String) :
    (chunks batch_size image_urls).length = (image_urls.length + batch_size - 1) / batch_size
    ∧ (chunks batch_size image_urls).flatten = image_urls
    ∧ (∀ c ∈ chunks batch_size image_urls, c.length ≤ batch_size)
    ∧ (∀ c ∈ (chunks batch_size image_urls).dropLast, c.length = batch_size)
    ∧ (∀ (env : PipelineEnv) (st : PipeState),
        (run_pipeline env image_urls batch_size st).2.length
          = (image_urls.length + batch_size - 1) / batch_size)
    ∧ (∀ (env : PipelineEnv) (st : PipeState),
        run_pipeline env [] batch_size st = (st, [])) := by
  refine ⟨chunksAux_length batch_size hB _ _ (Nat.le_refl _),
    chunksAux_flatten batch_size hB _ _ (Nat.le_refl _),
    fun c hc => chunksAux_mem_le batch_size _ _ c hc,
    fun c hc => chunksAux_dropLast_len batch_size hB _ _ (Nat.le_refl _) c hc,
    fun env st => ?_, fun env st => ?_⟩
  · rw [run_pipeline_trace env image_urls batch_size st hB, List.length_range']
    exact chunksAux_length batch_size hB _ _ (Nat.le_refl _)
  · unfold run_pipeline
    rw [if_neg (Nat.pos_iff_ne_zero.mp hB)]
    rfl

/-- Concrete pipeline environment for witnesses: batch 1 succeeds fully,
every other batch hits a session error; no unlink failures. -/
def wPipeEnv : PipelineEnv :=
  ⟨fun bn => if bn = 1 then c5EnvB else
    ⟨true, fun _ => dlOk, ⟨false, fun _ => imgOk, ⟨false, false, false, false⟩⟩⟩,
   fun _ _ => false⟩

/-- Witness for `controller_forms_ceil_batches` at batch size 2 over three
URLs. -/
theorem controller_forms_ceil_batches_witness :
    (chunks 2 ["u1", "u2", "u3"]).length = (3 + 2 - 1) / 2
    ∧ (chunks 2 ["u1", "u2", "u3"]).flatten = ["u1", "u2", "u3"]
    ∧ (run_pipeline wPipeEnv ["u1", "u2", "u3"] 2 emptyPipe).2.length = (3 + 2 - 1) / 2
    ∧ run_pipeline wPipeEnv [] 2 emptyPipe = (emptyPipe, []) :=
  ⟨(controller_forms_ceil_batches 2 (by decide) ["u1", "u2", "u3"]).1,
   (controller_forms_ceil_batches 2 (by decide) ["u1", "u2", "u3"]).2.1,
   (controller_forms_ceil_batches 2 (by decide) ["u1", "u2", "u3"]).2.2.2.2.1 wPipeEnv emptyPipe,
   (controller_forms_ceil_batches 2 (by decide) ["u1", "u2", "u3"]).2.2.2.2.2 wPipeEnv emptyPipe⟩

/-- Claim C10: `_process_batch` is total at its boundary — in every
environment, including any combination of download, session, inference
and persistence failures, it returns a (possibly empty) path list rather
than propagating an exception, so the Controller's loop runs the full
cycle (process plus input-directory clear) of every one of the
`(chunks batch_size image_urls).length` batches, in order 1, 2, …; and a
session exception in particular is caught by the outer handler, which
returns the empty list with the state unchanged. -/
theorem process_batch_total_loop_advances :
    (∀ (env : PipelineEnv) (image_urls : List String) (batch_size : Nat) (st : PipeState),
      0 < batch_size →
      (run_pipeline env image_urls batch_size st).2
        = List.range' 1 (chunks batch_size image_urls).length)
    ∧ ∀ (env : BatchEnv) (image_urls : List String) (batch_num : Nat) (st : PipeState),
        env.sessionErr = true → batch_num ∉ st.processedBatches →
        process_batch env image_urls batch_num st = ⟨0, [], none, st⟩ := by
  constructor
  · intro env image_urls batch_size st hB
    exact run_pipeline_trace env image_urls batch_size st hB
  · intro env image_urls batch_num st hs hnew
    unfold process_batch
    rw [if_neg hnew, hs]
    rfl

/-- Batch environment whose session/connector creation raises. -/
def sessErrEnv : BatchEnv :=
  ⟨true, fun _ => dlOk, ⟨false, fun _ => imgOk, ⟨false, false, false, false⟩⟩⟩

/-- Witness for `process_batch_total_loop_advances`: a three-URL run with
batch size 2 (batch 2 hits a session error yet the loop still runs both
cycles), and a batch call under a session error. -/
theorem process_batch_total_loop_advances_witness :
    (run_pipeline wPipeEnv ["u1", "u2", "u3"] 2 emptyPipe).2 = List.range' 1 (chunks 2 ["u1", "u2", "u3"]).length
    ∧ process_batch sessErrEnv ["u1"] 1 emptyPipe = ⟨0, [], none, emptyPipe⟩ :=
  ⟨process_batch_total_loop_advances.1 wPipeEnv ["u1", "u2", "u3"] 2 emptyPipe (by decide),
   process_batch_total_loop_advances.2 sessErrEnv ["u1"] 1 emptyPipe rfl (by decide)⟩
